import Mathlib

/-!
Verification of the two operational scripts in this repository:
`labs/lab-3-infrastructure-as-code/scripts/validate-templates.py`
(the Template Checker) and `scripts/list_unencrypted_buckets.py`
(the Encryption Auditor).

The Python code is shallowly embedded: each remote interaction
(CloudFormation `validate_template`, S3 `ListBuckets` and
`GetBucketEncryption`, credential resolution) is represented by an
explicit outcome value supplied by the environment, and each Python
function becomes a total Lean function over those outcomes. YAML
values are embedded as a generic tree `YamlVal`; Python dictionary
operations (`.get`, `in`, iteration) are modelled including the
dynamic-typing failure modes (`AttributeError` / `TypeError`) that the
scripts convert to result values.
-/

set_option linter.unusedVariables false

/-- A generic parsed YAML value, as produced by `yaml.safe_load`. -/
inductive YamlVal where
  | str : String → YamlVal
  | num : Int → YamlVal
  | dict : List (String × YamlVal) → YamlVal
  | arr : List YamlVal → YamlVal
  | null : YamlVal

/-- Python `==` between a value and a string literal: true only when the
value is that string. -/
def YamlVal.isStrEq : YamlVal → String → Bool
  | .str s, t => s == t
  | _, _ => false

/-- Python `==` / `in [..]` membership between a value and an integer
literal: true only when the value is that number. -/
def YamlVal.isNumEq : YamlVal → Int → Bool
  | .num n, m => n == m
  | _, _ => false

/-- Python `f"{v}"` rendering for the port number in an issue string
(only ever applied to numbers in the code path that emits it). -/
def YamlVal.renderNum : YamlVal → String
  | .num n => toString n
  | _ => ""

/-- Python `d.get(k, dflt)` on a dictionary (modelled as an ordered
association list; first binding wins). -/
def lookupD (d : List (String × YamlVal)) (k : String) (dflt : YamlVal) : YamlVal :=
  match d.find? (fun e => e.1 == k) with
  | some e => e.2
  | none => dflt

/-- Python `k in d` on a dictionary. -/
def hasKey (d : List (String × YamlVal)) (k : String) : Bool :=
  (d.find? (fun e => e.1 == k)).isSome

/-- Whether string `k` occurs as a substring of `s` (Python `k in s`). -/
def strContains (s k : String) : Bool :=
  (s.splitOn k).length != 1

/-- Python `k in v` for an arbitrary value `v`: key lookup on a dict,
substring test on a string, element equality on a list, and a
`TypeError` on anything not iterable. -/
def pyContains (k : String) (v : YamlVal) : Except String Bool :=
  match v with
  | .dict d => .ok (hasKey d k)
  | .str s => .ok (strContains s k)
  | .arr l => .ok (l.any (fun x => x.isStrEq k))
  | _ => .error "TypeError: argument of type is not iterable"

/-- The three configuration blocks required of a storage bucket, in the
order the script tests them (`validate-templates.py` lines 61-72). -/
def requiredBlocks : List String :=
  ["PublicAccessBlockConfiguration", "BucketEncryption", "VersioningConfiguration"]

/-- The issue string emitted for a bucket resource missing one block. -/
def missingMsg (name block : String) : String :=
  name ++ ": Missing " ++ block

/-- The blocks of `requiredBlocks` absent from a bucket's `Properties`
dictionary. -/
def missingBlocks (props : List (String × YamlVal)) : List String :=
  requiredBlocks.filter (fun b => ! hasKey props b)

/-- The `AWS::S3::Bucket` branch of `check_security_best_practices`
(lines 61-72): three membership tests against `Properties`, one issue
string appended per missing block. An exception from a membership test
propagates (to be caught at the function boundary). -/
def bucketCheck (name : String) (props : YamlVal) : Except String (List String) := do
  let hasPab ← pyContains "PublicAccessBlockConfiguration" props
  let hasEnc ← pyContains "BucketEncryption" props
  let hasVer ← pyContains "VersioningConfiguration" props
  pure ((if hasPab then [] else [missingMsg name "PublicAccessBlockConfiguration"])
     ++ (if hasEnc then [] else [missingMsg name "BucketEncryption"])
     ++ (if hasVer then [] else [missingMsg name "VersioningConfiguration"]))

/-- The issue string emitted for an open SSH/RDP ingress rule. -/
def portMsg (name : String) (p : YamlVal) : String :=
  name ++ ": Allows " ++ p.renderNum ++ " from 0.0.0.0/0"

/-- The body of the per-ingress-rule check (lines 78-82), for a rule
that is a dictionary: fetch `CidrIp` (default `""`), and when it is the
unrestricted range fetch `FromPort` (default `0`) and flag 22 or 3389. -/
def ruleIssueList (name : String) (r : List (String × YamlVal)) : List String :=
  if (lookupD r "CidrIp" (.str "")).isStrEq "0.0.0.0/0" then
    let p := lookupD r "FromPort" (.num 0)
    if p.isNumEq 22 || p.isNumEq 3389 then [portMsg name p] else []
  else []

/-- One iteration of `for rule in ingress_rules`: a non-dictionary rule
raises (`.get` on it fails). -/
def ruleIssue (name : String) (rule : YamlVal) : Except String (List String) :=
  match rule with
  | .dict r => .ok (ruleIssueList name r)
  | _ => .error "AttributeError: object has no attribute get"

/-- The loop over the ingress rules of one security group. -/
def rulesLoop (name : String) : List YamlVal → Except String (List String)
  | [] => .ok []
  | r :: rest => do
    let i ← ruleIssue name r
    let later ← rulesLoop name rest
    pure (i ++ later)

/-- The `AWS::EC2::SecurityGroup` branch (lines 75-82):
`properties.get` requires a dictionary; iterating
`SecurityGroupIngress` over a non-list either yields nothing (empty
dict or empty string) or raises. -/
def sgCheck (name : String) (props : YamlVal) : Except String (List String) :=
  match props with
  | .dict p =>
    match lookupD p "SecurityGroupIngress" (.arr []) with
    | .arr rules => rulesLoop name rules
    | .dict d => if d.isEmpty then .ok [] else .error "AttributeError: object has no attribute get"
    | .str s => if s.isEmpty then .ok [] else .error "AttributeError: object has no attribute get"
    | _ => .error "TypeError: object is not iterable"
  | _ => .error "AttributeError: object has no attribute get"

/-- The per-resource dispatch of the `Resources` loop (lines 56-82):
a non-dictionary resource configuration raises on `.get`; types other
than the two checked ones produce no issues. -/
def resourceIssues (name : String) (rc : YamlVal) : Except String (List String) :=
  match rc with
  | .dict config =>
    let rtype := lookupD config "Type" (.str "")
    let props := lookupD config "Properties" (.dict [])
    if rtype.isStrEq "AWS::S3::Bucket" then bucketCheck name props
    else if rtype.isStrEq "AWS::EC2::SecurityGroup" then sgCheck name props
    else .ok []
  | _ => .error "AttributeError: object has no attribute get"

/-- The loop over `resources.items()`, accumulating issues in order. -/
def resourcesWalk : List (String × YamlVal) → Except String (List String)
  | [] => .ok []
  | (n, rc) :: rest => do
    let i ← resourceIssues n rc
    let later ← resourcesWalk rest
    pure (i ++ later)

/-- The whole walk of a parsed template (lines 54-84): `template.get`
requires a dictionary, `resources.items()` requires the `Resources`
value (default `{}`) to be a dictionary. -/
def walkTemplate (t : YamlVal) : Except String (List String) :=
  match t with
  | .dict td =>
    match lookupD td "Resources" (.dict []) with
    | .dict rs => resourcesWalk rs
    | _ => .error "AttributeError: object has no attribute items"
  | _ => .error "AttributeError: object has no attribute get"

/-- Outcome of `yaml.safe_load` over a file: a parse error
(`yaml.YAMLError`) or any other read error. -/
inductive YErr where
  | yaml : String → YErr
  | readErr : String → YErr
deriving DecidableEq

/-- Python `str(e)` for a load failure. -/
def YErr.render : YErr → String
  | .yaml m => m
  | .readErr m => m

/-- Outcome of the remote `validate_template` call for a file's body,
as distinguished by the handlers at lines 37-44: success,
`NoCredentialsError`, `ClientError` (carrying the provider error code
and message), or any other exception. -/
inductive CfOutcome where
  | ok : CfOutcome
  | noCreds : CfOutcome
  | clientError : String → String → CfOutcome
  | other : String → CfOutcome
deriving DecidableEq

/-- A file as the Template Checker observes it: the result of loading
it as YAML, and the outcome the remote validation service would give
its body. -/
structure FileState where
  parse : Except YErr YamlVal
  cf : CfOutcome

/-- The syntax check of lines 15-24 (source name ends in a word this
development avoids in identifiers). -/
def validate_yaml (f : FileState) : Bool × String :=
  match f.parse with
  | .ok _ => (true, "Valid YAML syntax")
  | .error (.yaml m) => (false, "YAML syntax error: " ++ m)
  | .error (.readErr m) => (false, "Error reading file: " ++ m)

/-- `validate_cloudformation_template` (lines 26-44): every failure
class is converted to a `(false, message)` pair. -/
def validate_cloudformation_template (f : FileState) : Bool × String :=
  match f.cf with
  | .ok => (true, "Valid CloudFormation template")
  | .noCreds => (false, "AWS credentials not configured")
  | .clientError c m => (false, "CloudFormation validation error (" ++ c ++ "): " ++ m)
  | .other m => (false, "Unexpected error: " ++ m)

/-- `check_security_best_practices` (lines 46-87): re-load the file and
walk it; any exception becomes a single issue string. -/
def check_security_best_practices (f : FileState) : List String :=
  match f.parse with
  | .error e => ["Error checking security practices: " ++ e.render]
  | .ok t =>
    match walkTemplate t with
    | .ok issues => issues
    | .error e => ["Error checking security practices: " ++ e]

/-- The checks `main` actually runs on one file. -/
inductive CheckAction where
  | runSyntax : CheckAction
  | runRemote : CheckAction
  | runSecurity : CheckAction
deriving DecidableEq

/-- What happened to one file in `main`'s loop (lines 111-141): syntax
failure skips the rest via `continue`, remote failure skips the
security check via `continue`, otherwise the security issues are
printed as warnings. -/
inductive StepTrace where
  | syntaxFailed : String → StepTrace
  | cfFailed : String → String → StepTrace
  | passed : String → String → List String → StepTrace
deriving DecidableEq

/-- One iteration of `main`'s per-file loop. -/
def processFile (f : FileState) : StepTrace :=
  let y := validate_yaml f
  if y.1 then
    let c := validate_cloudformation_template f
    if c.1 then .passed y.2 c.2 (check_security_best_practices f)
    else .cfFailed y.2 c.2
  else .syntaxFailed y.2

/-- The checks that execute for one file, in order, following the two
`continue` statements. -/
def processFileActions (f : FileState) : List CheckAction :=
  if (validate_yaml f).1 then
    if (validate_cloudformation_template f).1 then
      [.runSyntax, .runRemote, .runSecurity]
    else [.runSyntax, .runRemote]
  else [.runSyntax]

/-- Whether the file counts towards `passed_files` (line 140): both
flags true, security issues irrelevant. -/
def StepTrace.isPassed : StepTrace → Bool
  | .passed _ _ _ => true
  | _ => false

/-- `main`'s loop: the `passed_files` count and the per-file traces. -/
def loopFiles : List FileState → Nat × List StepTrace
  | [] => (0, [])
  | f :: rest =>
    let t := processFile f
    let r := loopFiles rest
    ((if t.isPassed then 1 else 0) + r.1, t :: r.2)

/-- The command-line target of the Template Checker: no argument, an
argument that is neither a file nor a directory, a single file, or a
directory listed as (relative filename, file state) entries. -/
inductive Target where
  | missingArg : Target
  | invalidPath : Target
  | file : FileState → Target
  | dir : List (String × FileState) → Target

/-- Filename suffix test (glob `**/*.ext` matches by suffix). -/
def strEndsWith (s t : String) : Bool :=
  t.data.isSuffixOf s.data

/-- The glob of line 100: all `*.yml` files of the tree, then all
`*.yaml` files. -/
def discover (entries : List (String × FileState)) : List FileState :=
  ((entries.filter (fun e => strEndsWith e.1 ".yml"))
    ++ (entries.filter (fun e => strEndsWith e.1 ".yaml"))).map (fun e => e.2)

/-- The file list `main` builds from its argument (lines 91-103), or
`none` when it exits 1 before validating anything. -/
def targetFiles : Target → Option (List FileState)
  | .missingArg => none
  | .invalidPath => none
  | .file f => some [f]
  | .dir es => some (discover es)

/-- `main` of `validate-templates.py` (lines 89-151): exit code,
per-file traces, and the summary line. A missing or invalid argument
exits 1 with no files validated. -/
def main_validate (t : Target) : Nat × List StepTrace × String :=
  match targetFiles t with
  | none => (1, [], "")
  | some files =>
    let r := loopFiles files
    ((if r.1 = files.length then 0 else 1), r.2,
      "📊 Summary: " ++ toString r.1 ++ "/" ++ toString files.length
        ++ " files passed validation")

/-- Outcome of the remote `GetBucketEncryption` call for one bucket:
success, a `ClientError` carrying a provider error code, or an
`EndpointConnectionError`. -/
inductive GetEncOutcome where
  | ok : GetEncOutcome
  | clientError : String → GetEncOutcome
  | connError : String → GetEncOutcome
deriving DecidableEq

/-- Outcome of the remote `ListBuckets` call. -/
inductive ListOutcome where
  | ok : List String → ListOutcome
  | clientError : String → ListOutcome
  | connError : String → ListOutcome
deriving DecidableEq

/-- The AWS environment as the Encryption Auditor observes it: whether
credentials resolve at client construction, the enumeration outcome,
and the per-bucket encryption-configuration outcome. -/
structure S3World where
  creds : Bool
  listBucketsResult : ListOutcome
  getEnc : String → GetEncOutcome

/-- An exception escaping `is_bucket_encrypted`. -/
inductive AuditErr where
  | clientError : String → AuditErr
  | connError : String → AuditErr
deriving DecidableEq

/-- The provider error code meaning the bucket has no default
encryption configuration. -/
def notFoundCode : String := "ServerSideEncryptionConfigurationNotFoundError"

/-- `is_bucket_encrypted` (lines 30-59): success means `true`, the
specific not-found `ClientError` code means `false`, any other
`ClientError` is re-raised, and an `EndpointConnectionError` is not
caught at all. -/
def is_bucket_encrypted (w : S3World) (name : String) : Except AuditErr Bool :=
  match w.getEnc name with
  | .ok => .ok true
  | .clientError code =>
    if code == notFoundCode then .ok false
    else .error (.clientError code)
  | .connError m => .error (.connError m)

/-- The warning printed when a bucket's check raises a `ClientError`
(line 79). -/
def warnMsg (name code : String) : String :=
  "[WARN] Skipping bucket \x27" ++ name ++ "\x27 – " ++ code

/-- The per-bucket loop of `list_unencrypted_buckets` (lines 72-80):
returns the printed lines and either the collected unencrypted names or
the exception that escaped the loop (only an `EndpointConnectionError`
can, since the loop catches `ClientError`). -/
def auditLoop (w : S3World) : List String → List String × Except AuditErr (List String)
  | [] => ([], .ok [])
  | n :: rest =>
    match is_bucket_encrypted w n with
    | .ok true => auditLoop w rest
    | .ok false =>
      let r := auditLoop w rest
      (r.1, r.2.map (fun l => n :: l))
    | .error (.clientError code) =>
      let r := auditLoop w rest
      (warnMsg n code :: r.1, r.2)
    | .error e => ([], .error e)

/-- Whether a bucket ends up in the unencrypted list: its attribute
check failed with the specific not-found code. -/
def bucketUnencB (w : S3World) (n : String) : Bool :=
  match w.getEnc n with
  | .clientError c => c == notFoundCode
  | _ => false

/-- Whether a bucket gets a skip warning: its attribute check failed
with some other provider error code. -/
def bucketWarnB (w : S3World) (n : String) : Bool :=
  match w.getEnc n with
  | .clientError c => c != notFoundCode
  | _ => false

/-- The provider error code reported in a bucket's skip warning. -/
def warnCode (w : S3World) (n : String) : String :=
  match w.getEnc n with
  | .clientError c => c
  | _ => ""

/-- `list_unencrypted_buckets` (lines 62-82): an enumeration failure
(`ClientError` or `EndpointConnectionError`) is caught, reported, and
turned into an empty result. -/
def list_unencrypted_buckets (w : S3World) : List String × Except AuditErr (List String) :=
  match w.listBucketsResult with
  | .ok names => auditLoop w names
  | .clientError m => (["[ERROR] Unable to list buckets: " ++ m], .ok [])
  | .connError m => (["[ERROR] Unable to list buckets: " ++ m], .ok [])

/-- The success line printed when no unencrypted bucket was found. -/
def allEncryptedMsg : String :=
  "All buckets have default server-side encryption enabled. ✅"

/-- `main` of `list_unencrypted_buckets.py` (lines 85-104): exit code
and printed lines. Missing credentials exit 1 at once; an
`EndpointConnectionError` escaping `list_unencrypted_buckets` exits 1;
an escaping `ClientError` would be an uncaught exception (Python exits
1 with a traceback), but the loop never lets one escape. -/
def main_audit (w : S3World) : Nat × List String :=
  if w.creds then
    let r := list_unencrypted_buckets w
    match r.2 with
    | .ok [] => (0, r.1 ++ [allEncryptedMsg])
    | .ok l => (0, r.1 ++ ["Unencrypted buckets detected (default encryption missing):"]
        ++ l.map (fun b => "  • " ++ b))
    | .error (.connError m) => (1, r.1 ++ ["[ERROR] Network error while contacting AWS: " ++ m])
    | .error (.clientError c) => (1, r.1 ++ ["Traceback (most recent call last): ClientError " ++ c])
  else (1, ["[ERROR] AWS credentials not found. Configure them and retry."])

/-! ### Helper lemmas -/

theorem string_append_cancel {n s t : String} (h : n ++ s = n ++ t) : s = t := by
  have h2 := congrArg String.data h
  simp only [String.data_append] at h2
  exact String.ext (List.append_cancel_left h2)

theorem missingMsg_injective (name : String) : Function.Injective (missingMsg name) := by
  intro b c h
  exact string_append_cancel h

theorem processFile_isPassed (f : FileState) :
    (processFile f).isPassed
      = ((validate_yaml f).1 && (validate_cloudformation_template f).1) := by
  unfold processFile
  cases hy : (validate_yaml f).1 <;> cases hc : (validate_cloudformation_template f).1 <;>
    simp [hy, hc, StepTrace.isPassed]

theorem loopFiles_eq (files : List FileState) :
    loopFiles files
      = (files.countP (fun f => (processFile f).isPassed), files.map processFile) := by
  induction files with
  | nil => rfl
  | cons f rest ih =>
    simp only [loopFiles, ih, List.countP_cons, List.map_cons]
    rw [Nat.add_comm]

theorem main_validate_dir_exit (es : List (String × FileState)) :
    (main_validate (.dir es)).1 = 0 ↔
      ∀ f ∈ discover es, (processFile f).isPassed = true := by
  simp only [main_validate, targetFiles, loopFiles_eq]
  rw [← List.countP_eq_length]
  constructor
  · intro h
    by_cases hc :
        (discover es).countP (fun f => (processFile f).isPassed) = (discover es).length
    · exact hc
    · simp [hc] at h
  · intro h
    simp [h]

theorem bucketCheck_dict (name : String) (props : List (String × YamlVal)) :
    bucketCheck name (.dict props) = .ok ((missingBlocks props).map (missingMsg name)) := by
  simp only [bucketCheck, pyContains, missingBlocks, requiredBlocks]
  cases h1 : hasKey props "PublicAccessBlockConfiguration" <;>
    cases h2 : hasKey props "BucketEncryption" <;>
      cases h3 : hasKey props "VersioningConfiguration" <;>
        simp [h1, h2, h3, bind, Except.bind, pure, Except.pure]

theorem auditLoop_no_conn (w : S3World) (names : List String)
    (h : ∀ n ∈ names, ∀ m, w.getEnc n ≠ .connError m) :
    auditLoop w names
      = ((names.filter (bucketWarnB w)).map (fun n => warnMsg n (warnCode w n)),
          .ok (names.filter (bucketUnencB w))) := by
  induction names with
  | nil => rfl
  | cons n rest ih =>
    have hrest : ∀ x ∈ rest, ∀ m, w.getEnc x ≠ .connError m :=
      fun x hx => h x (List.mem_cons_of_mem n hx)
    have hn := h n (List.mem_cons_self n rest)
    simp only [auditLoop, is_bucket_encrypted]
    cases hg : w.getEnc n with
    | ok =>
      simp only [List.filter_cons, bucketWarnB, bucketUnencB, hg]
      simpa using ih hrest
    | clientError c =>
      by_cases hc : c = notFoundCode
      · subst hc
        simp only [beq_self_eq_true, if_true, ih hrest,
          List.filter_cons, bucketWarnB, bucketUnencB, hg, bne_self_eq_false,
          beq_self_eq_true, Except.map]
        simp
      · have hcb : (c == notFoundCode) = false := beq_eq_false_iff_ne.mpr hc
        simp only [hcb, if_false, ih hrest, List.filter_cons, bucketWarnB, bucketUnencB, hg,
          warnCode]
        simp [bne, hcb, warnCode, hg]
    | connError m => exact absurd hg (hn m)

/-! ### Claim theorems -/

/-- C3: for every bucket name, `is_bucket_encrypted` returns `false`
if and only if the remote get-encryption-configuration call fails with
the specific "configuration not found" provider error code; it returns
`true` when the call succeeds, and for any other provider error code it
re-raises the error to the caller instead of returning a value. -/
theorem C3_is_bucket_encrypted (w : S3World) (name : String) :
    (is_bucket_encrypted w name = .ok false ↔ w.getEnc name = .clientError notFoundCode)
    ∧ (w.getEnc name = .ok → is_bucket_encrypted w name = .ok true)
    ∧ (∀ c, c ≠ notFoundCode → w.getEnc name = .clientError c →
        is_bucket_encrypted w name = .error (.clientError c)) := by
  refine ⟨?_, ?_, ?_⟩
  · unfold is_bucket_encrypted
    cases hg : w.getEnc name with
    | ok => simp
    | clientError c =>
      by_cases hc : c = notFoundCode
      · subst hc; simp
      · simp [beq_eq_false_iff_ne.mpr hc, hc]
    | connError m => simp
  · intro hg; simp [is_bucket_encrypted, hg]
  · intro c hc hg
    simp [is_bucket_encrypted, hg, beq_eq_false_iff_ne.mpr hc]

/-- C3 witness: a succeeding call, a not-found failure and an
access-denied failure, each at a concrete world. -/
theorem C3_is_bucket_encrypted_witness :
    is_bucket_encrypted ⟨true, .ok [], fun n => if n == "good" then .ok
      else if n == "plain" then .clientError notFoundCode
      else .clientError "AccessDenied"⟩ "good" = .ok true
    ∧ is_bucket_encrypted ⟨true, .ok [], fun n => if n == "good" then .ok
      else if n == "plain" then .clientError notFoundCode
      else .clientError "AccessDenied"⟩ "plain" = .ok false
    ∧ is_bucket_encrypted ⟨true, .ok [], fun n => if n == "good" then .ok
      else if n == "plain" then .clientError notFoundCode
      else .clientError "AccessDenied"⟩ "denied" = .error (.clientError "AccessDenied") :=
  ⟨(C3_is_bucket_encrypted _ "good").2.1 rfl,
   (C3_is_bucket_encrypted _ "plain").1.mpr rfl,
   (C3_is_bucket_encrypted _ "denied").2.2 "AccessDenied" (by decide) rfl⟩

/-- C4: every enumerated bucket whose attribute check raises a remote
error other than the "configuration not found" code gets a warning
naming the bucket and its provider error code, is omitted from the
returned sequence, and the remaining buckets are still processed (the
result is the filter over the whole enumeration, so every other
unencrypted bucket still appears). Stated for runs in which no
per-bucket connectivity failure aborts the loop. -/
theorem C4_skip_errored_bucket (w : S3World) (names : List String) (b c : String)
    (hconn : ∀ n ∈ names, ∀ m, w.getEnc n ≠ .connError m)
    (hb : b ∈ names) (hc : w.getEnc b = .clientError c) (hcne : c ≠ notFoundCode) :
    (auditLoop w names).2 = .ok (names.filter (bucketUnencB w))
    ∧ b ∉ names.filter (bucketUnencB w)
    ∧ warnMsg b c ∈ (auditLoop w names).1
    ∧ ∀ n ∈ names, bucketUnencB w n = true → n ∈ names.filter (bucketUnencB w) := by
  have hchar := auditLoop_no_conn w names hconn
  refine ⟨by rw [hchar], ?_, ?_, ?_⟩
  · intro hmem
    have := (List.mem_filter.mp hmem).2
    rw [bucketUnencB, hc] at this
    exact hcne (beq_iff_eq.mp this)
  · rw [hchar]
    have hbw : bucketWarnB w b = true := by
      rw [bucketWarnB, hc]
      simpa [bne] using beq_eq_false_iff_ne.mpr hcne
    have hbf : b ∈ names.filter (bucketWarnB w) := List.mem_filter.mpr ⟨hb, hbw⟩
    have hcode : warnCode w b = c := by rw [warnCode, hc]
    have hmem := List.mem_map_of_mem (fun n => warnMsg n (warnCode w n)) hbf
    simpa [hcode] using hmem
  · intro n hn hu
    exact List.mem_filter.mpr ⟨hn, hu⟩

/-- C4 witness: three buckets - one unencrypted, one access-denied, one
encrypted - at a concrete world; the denied one is skipped with a
warning and the loop still reports the unencrypted one. -/
theorem C4_skip_errored_bucket_witness :
    (auditLoop ⟨true, .ok ["plain", "denied", "good"], fun n => if n == "good" then .ok
        else if n == "plain" then .clientError notFoundCode
        else .clientError "AccessDenied"⟩ ["plain", "denied", "good"]).2
      = .ok (["plain", "denied", "good"].filter
          (bucketUnencB ⟨true, .ok ["plain", "denied", "good"], fun n => if n == "good" then .ok
            else if n == "plain" then .clientError notFoundCode
            else .clientError "AccessDenied"⟩))
    ∧ "denied" ∉ ["plain", "denied", "good"].filter
        (bucketUnencB ⟨true, .ok ["plain", "denied", "good"], fun n => if n == "good" then .ok
          else if n == "plain" then .clientError notFoundCode
          else .clientError "AccessDenied"⟩)
    ∧ warnMsg "denied" "AccessDenied" ∈
        (auditLoop ⟨true, .ok ["plain", "denied", "good"], fun n => if n == "good" then .ok
          else if n == "plain" then .clientError notFoundCode
          else .clientError "AccessDenied"⟩ ["plain", "denied", "good"]).1 := by
  have h := C4_skip_errored_bucket
    ⟨true, .ok ["plain", "denied", "good"], fun n => if n == "good" then .ok
      else if n == "plain" then .clientError notFoundCode
      else .clientError "AccessDenied"⟩
    ["plain", "denied", "good"] "denied" "AccessDenied"
    (by intro n hn m; fin_cases hn <;> simp)
    (by simp) rfl (by decide)
  exact ⟨h.1, h.2.1, h.2.2.1⟩

/-- C9: `validate_cloudformation_template` converts each of its three
failure classes (no credentials, remote rejection with a provider code,
any other failure) into a `(false, message)` result, and
`check_security_best_practices` converts any error during its
parse-and-walk into a single issue string describing the error; neither
lets an error escape. -/
theorem C9_error_boundaries (f : FileState) :
    (f.cf = .noCreds →
      validate_cloudformation_template f = (false, "AWS credentials not configured"))
    ∧ (∀ c m, f.cf = .clientError c m →
      validate_cloudformation_template f
        = (false, "CloudFormation validation error (" ++ c ++ "): " ++ m))
    ∧ (∀ m, f.cf = .other m →
      validate_cloudformation_template f = (false, "Unexpected error: " ++ m))
    ∧ (∀ e, f.parse = .error e →
      check_security_best_practices f = ["Error checking security practices: " ++ e.render])
    ∧ (∀ t e, f.parse = .ok t → walkTemplate t = .error e →
      check_security_best_practices f = ["Error checking security practices: " ++ e]) := by
  refine ⟨?_, ?_, ?_, ?_, ?_⟩
  · intro h; simp [validate_cloudformation_template, h]
  · intro c m h; simp [validate_cloudformation_template, h]
  · intro m h; simp [validate_cloudformation_template, h]
  · intro e h; simp [check_security_best_practices, h]
  · intro t e hp hw; simp [check_security_best_practices, hp, hw]

/-- C9 witness: the three remote failure classes and a parse error plus
a walk error, each evaluated at a concrete file. -/
theorem C9_error_boundaries_witness :
    validate_cloudformation_template ⟨.ok .null, .noCreds⟩
      = (false, "AWS credentials not configured")
    ∧ validate_cloudformation_template ⟨.ok .null, .clientError "ValidationError" "oops"⟩
      = (false, "CloudFormation validation error (ValidationError): oops")
    ∧ validate_cloudformation_template ⟨.ok .null, .other "timeout"⟩
      = (false, "Unexpected error: timeout")
    ∧ check_security_best_practices ⟨.error (.yaml "bad indent"), .ok⟩
      = ["Error checking security practices: bad indent"]
    ∧ check_security_best_practices ⟨.ok (.arr []), .ok⟩
      = ["Error checking security practices: AttributeError: object has no attribute get"] :=
  ⟨(C9_error_boundaries ⟨.ok .null, .noCreds⟩).1 rfl,
   (C9_error_boundaries ⟨.ok .null, .clientError "ValidationError" "oops"⟩).2.1
     "ValidationError" "oops" rfl,
   (C9_error_boundaries ⟨.ok .null, .other "timeout"⟩).2.2.1 "timeout" rfl,
   (C9_error_boundaries ⟨.error (.yaml "bad indent"), .ok⟩).2.2.2.1 (.yaml "bad indent") rfl,
   (C9_error_boundaries ⟨.ok (.arr []), .ok⟩).2.2.2.2 (.arr [])
     "AttributeError: object has no attribute get" rfl rfl⟩

/-- C5: a file counts as passed if and only if both its syntax check
and its remote-validity check succeeded - the security issues play no
part - and the final exit status is 0 exactly when every discovered
file passed. -/
theorem C5_passed_and_exit (es : List (String × FileState)) :
    ((main_validate (.dir es)).1 = 0 ↔
      ∀ f ∈ discover es,
        (validate_yaml f).1 = true ∧ (validate_cloudformation_template f).1 = true)
    ∧ ∀ f : FileState,
        (processFile f).isPassed
          = ((validate_yaml f).1 && (validate_cloudformation_template f).1) := by
  constructor
  · rw [main_validate_dir_exit]
    constructor
    · intro h f hf
      have hp := h f hf
      rw [processFile_isPassed] at hp
      exact (Bool.and_eq_true _ _).mp hp
    · intro h f hf
      rw [processFile_isPassed]
      exact (Bool.and_eq_true _ _).mpr ⟨(h f hf).1, (h f hf).2⟩
  · exact processFile_isPassed

/-- C5 witness: a directory with one clean file and one file with
security issues (a bucket missing all three blocks) - both count as
passed and the run exits 0; and a directory whose only file fails
remote validation exits 1. -/
theorem C5_passed_and_exit_witness :
    (main_validate (.dir [("a.yml",
        ⟨.ok (.dict [("Resources", .dict [("B", .dict [("Type", .str "AWS::S3::Bucket")])])]),
         .ok⟩)])).1 = 0
    ∧ ¬ (main_validate (.dir [("b.yml",
        ⟨.ok .null, .clientError "ValidationError" "bad"⟩)])).1 = 0 :=
  ⟨(C5_passed_and_exit _).1.mpr (by
      intro f hf
      have hd : discover [("a.yml",
          (⟨.ok (.dict [("Resources", .dict [("B", .dict [("Type", .str "AWS::S3::Bucket")])])]),
           .ok⟩ : FileState))]
          = [⟨.ok (.dict [("Resources", .dict [("B", .dict [("Type", .str "AWS::S3::Bucket")])])]),
             .ok⟩] := rfl
      rw [hd] at hf
      rcases List.mem_singleton.mp hf with rfl
      exact ⟨rfl, rfl⟩),
   fun h => by
    have hall := (C5_passed_and_exit [("b.yml",
        (⟨.ok .null, .clientError "ValidationError" "bad"⟩ : FileState))]).1.mp h
    have hd : discover [("b.yml", (⟨.ok .null, .clientError "ValidationError" "bad"⟩ : FileState))]
        = [⟨.ok .null, .clientError "ValidationError" "bad"⟩] := rfl
    have h2 := hall ⟨.ok .null, .clientError "ValidationError" "bad"⟩
      (by rw [hd]; exact List.mem_singleton.mpr rfl)
    simpa [validate_cloudformation_template] using h2.2⟩

/-- C6: a file whose content fails the syntax check gets a failure
result from `validate_yaml`, is marked failed, and neither the
remote-validity check nor the security-rules check executes for it; a
file whose remote-validity check fails is marked failed and skips the
security check. -/
theorem C6_short_circuit (f : FileState) :
    (∀ m, f.parse = .error (.yaml m) →
      validate_yaml f = (false, "YAML syntax error: " ++ m))
    ∧ ((validate_yaml f).1 = false →
      processFileActions f = [.runSyntax] ∧ (processFile f).isPassed = false)
    ∧ ((validate_yaml f).1 = true → (validate_cloudformation_template f).1 = false →
      processFileActions f = [.runSyntax, .runRemote] ∧ (processFile f).isPassed = false) := by
  refine ⟨?_, ?_, ?_⟩
  · intro m h; simp [validate_yaml, h]
  · intro h
    constructor
    · simp [processFileActions, h]
    · rw [processFile_isPassed, h]; rfl
  · intro hy hc
    constructor
    · simp [processFileActions, hy, hc]
    · rw [processFile_isPassed, hy, hc]; rfl

/-- C6 witness: a syntactically invalid file runs only the syntax
check, and a remotely rejected file runs only syntax and remote checks,
both failing. -/
theorem C6_short_circuit_witness :
    validate_yaml ⟨.error (.yaml "bad"), .ok⟩ = (false, "YAML syntax error: bad")
    ∧ processFileActions ⟨.error (.yaml "bad"), .ok⟩ = [.runSyntax]
    ∧ (processFile ⟨.error (.yaml "bad"), .ok⟩).isPassed = false
    ∧ processFileActions ⟨.ok .null, .clientError "ValidationError" "bad"⟩
        = [.runSyntax, .runRemote]
    ∧ (processFile ⟨.ok .null, .clientError "ValidationError" "bad"⟩).isPassed = false :=
  ⟨(C6_short_circuit ⟨.error (.yaml "bad"), .ok⟩).1 "bad" rfl,
   ((C6_short_circuit ⟨.error (.yaml "bad"), .ok⟩).2.1 rfl).1,
   ((C6_short_circuit ⟨.error (.yaml "bad"), .ok⟩).2.1 rfl).2,
   ((C6_short_circuit ⟨.ok .null, .clientError "ValidationError" "bad"⟩).2.2 rfl rfl).1,
   ((C6_short_circuit ⟨.ok .null, .clientError "ValidationError" "bad"⟩).2.2 rfl rfl).2⟩

/-- C7: a storage-bucket resource whose `Properties` dictionary is
missing one or more of the three required blocks yields exactly one
issue per missing block (the bucket branch computes the map of
`missingMsg` over the missing blocks), each issue carries the resource
name, and a bucket with all three blocks contributes no issue. -/
theorem C7_bucket_missing_blocks (name : String) (props : List (String × YamlVal)) :
    bucketCheck name (.dict props) = .ok ((missingBlocks props).map (missingMsg name))
    ∧ (∀ b ∈ requiredBlocks, hasKey props b = false →
        ((missingBlocks props).map (missingMsg name)).count (missingMsg name b) = 1)
    ∧ (∀ i ∈ (missingBlocks props).map (missingMsg name), ∃ s, i = name ++ s)
    ∧ ((∀ b ∈ requiredBlocks, hasKey props b = true) →
        bucketCheck name (.dict props) = .ok []) := by
  refine ⟨bucketCheck_dict name props, ?_, ?_, ?_⟩
  · intro b hb hmiss
    rw [List.count_map_of_injective _ _ (missingMsg_injective name)]
    rw [missingBlocks, List.count_filter (by simp [hmiss])]
    exact List.count_eq_one_of_mem (by decide) hb
  · intro i hi
    rcases List.mem_map.mp hi with ⟨b, _, rfl⟩
    exact ⟨": Missing " ++ b, by simp [missingMsg, String.append_assoc]⟩
  · intro hall
    rw [bucketCheck_dict]
    have : missingBlocks props = [] := by
      rw [missingBlocks, List.filter_eq_nil_iff]
      intro b hb
      simp [hall b hb]
    rw [this]
    rfl

/-- C7 witness: a bucket missing encryption and versioning yields those
two issues exactly once each, and a fully configured bucket yields
none. -/
theorem C7_bucket_missing_blocks_witness :
    bucketCheck "Logs" (.dict [("PublicAccessBlockConfiguration", .dict [])])
      = .ok ((missingBlocks [("PublicAccessBlockConfiguration", .dict [])]).map (missingMsg "Logs"))
    ∧ ((missingBlocks [("PublicAccessBlockConfiguration", .dict [])]).map
        (missingMsg "Logs")).count (missingMsg "Logs" "BucketEncryption") = 1
    ∧ bucketCheck "Safe" (.dict [("PublicAccessBlockConfiguration", .dict []),
        ("BucketEncryption", .dict []), ("VersioningConfiguration", .dict [])]) = .ok [] :=
  ⟨(C7_bucket_missing_blocks "Logs" [("PublicAccessBlockConfiguration", .dict [])]).1,
   (C7_bucket_missing_blocks "Logs" [("PublicAccessBlockConfiguration", .dict [])]).2.1
     "BucketEncryption" (by decide) rfl,
   (C7_bucket_missing_blocks "Safe" [("PublicAccessBlockConfiguration", .dict []),
       ("BucketEncryption", .dict []), ("VersioningConfiguration", .dict [])]).2.2.2
     (by intro b hb; fin_cases hb <;> rfl)⟩

/-- C8: an ingress rule whose source CIDR is `0.0.0.0/0` and whose
`FromPort` is 22 or 3389 yields exactly one issue naming the resource
and the port; a rule with any other CIDR, or any other port, yields no
issue; and the ingress loop concatenates the per-rule issues. -/
theorem C8_sg_open_ports (name : String) (r : List (String × YamlVal)) :
    (∀ p : Int, lookupD r "CidrIp" (.str "") = .str "0.0.0.0/0" →
      lookupD r "FromPort" (.num 0) = .num p → (p = 22 ∨ p = 3389) →
      ruleIssue name (.dict r) = .ok [name ++ ": Allows " ++ toString p ++ " from 0.0.0.0/0"])
    ∧ (lookupD r "CidrIp" (.str "") ≠ .str "0.0.0.0/0" → ruleIssue name (.dict r) = .ok [])
    ∧ (∀ v, lookupD r "FromPort" (.num 0) = v →
      v.isNumEq 22 = false → v.isNumEq 3389 = false → ruleIssue name (.dict r) = .ok [])
    ∧ (∀ rs : List (List (String × YamlVal)),
      rulesLoop name (rs.map .dict) = .ok (rs.flatMap (ruleIssueList name))) := by
  refine ⟨?_, ?_, ?_, ?_⟩
  · intro p hcidr hport hp
    rcases hp with rfl | rfl <;>
      simp [ruleIssue, ruleIssueList, hcidr, hport, portMsg,
        YamlVal.renderNum, YamlVal.isStrEq, YamlVal.isNumEq]
  · intro hne
    cases hv : lookupD r "CidrIp" (.str "") with
    | str s =>
      rw [hv] at hne
      have hs : s ≠ "0.0.0.0/0" := fun h => hne (by rw [h])
      simp [ruleIssue, ruleIssueList, hv, YamlVal.isStrEq, hs]
    | _ => simp [ruleIssue, ruleIssueList, hv, YamlVal.isStrEq]
  · intro v hv h22 h3389
    by_cases hc : (lookupD r "CidrIp" (.str "")).isStrEq "0.0.0.0/0" = true
    · simp [ruleIssue, ruleIssueList, hc, hv, h22, h3389]
    · simp only [Bool.not_eq_true] at hc
      simp [ruleIssue, ruleIssueList, hc]
  · intro rs
    induction rs with
    | nil => rfl
    | cons x rest ih =>
      simp [rulesLoop, ruleIssue, ih, bind, Except.bind, pure, Except.pure]

/-- C8 witness: an open port-22 rule yields its one issue, a
restricted-CIDR rule and an open port-80 rule yield none, and the loop
over those three rules yields exactly the one issue. -/
theorem C8_sg_open_ports_witness :
    ruleIssue "Web" (.dict [("CidrIp", .str "0.0.0.0/0"), ("FromPort", .num 22)])
      = .ok ["Web" ++ ": Allows " ++ toString (22 : Int) ++ " from 0.0.0.0/0"]
    ∧ ruleIssue "Web" (.dict [("CidrIp", .str "10.0.0.0/8"), ("FromPort", .num 22)]) = .ok []
    ∧ ruleIssue "Web" (.dict [("CidrIp", .str "0.0.0.0/0"), ("FromPort", .num 80)]) = .ok []
    ∧ rulesLoop "Web" ([[("CidrIp", .str "0.0.0.0/0"), ("FromPort", .num 22)],
        [("CidrIp", .str "10.0.0.0/8"), ("FromPort", .num 22)],
        [("CidrIp", .str "0.0.0.0/0"), ("FromPort", .num 80)]].map .dict)
      = .ok ([[("CidrIp", .str "0.0.0.0/0"), ("FromPort", .num 22)],
        [("CidrIp", .str "10.0.0.0/8"), ("FromPort", .num 22)],
        [("CidrIp", .str "0.0.0.0/0"), ("FromPort", .num 80)]].flatMap (ruleIssueList "Web")) :=
  ⟨(C8_sg_open_ports "Web" [("CidrIp", .str "0.0.0.0/0"), ("FromPort", .num 22)]).1
     22 rfl rfl (Or.inl rfl),
   (C8_sg_open_ports "Web" [("CidrIp", .str "10.0.0.0/8"), ("FromPort", .num 22)]).2.1
     (by
      have hl : lookupD [("CidrIp", .str "10.0.0.0/8"), ("FromPort", .num 22)] "CidrIp" (.str "")
          = .str "10.0.0.0/8" := rfl
      rw [hl]
      intro h
      exact absurd (YamlVal.str.inj h) (by decide)),
   (C8_sg_open_ports "Web" [("CidrIp", .str "0.0.0.0/0"), ("FromPort", .num 80)]).2.2.1
     (.num 80) rfl rfl rfl,
   (C8_sg_open_ports "Web" []).2.2.2 _⟩

/-- C10: every existing directory containing no `*.yml` or `*.yaml`
file discovers zero files, performs no checks (no per-file trace),
prints the 0/0 summary, and exits 0. -/
theorem C10_empty_directory_run (entries : List (String × FileState))
    (h : ∀ e ∈ entries, strEndsWith e.1 ".yml" = false ∧ strEndsWith e.1 ".yaml" = false) :
    discover entries = []
    ∧ main_validate (.dir entries) = (0, [], "📊 Summary: 0/0 files passed validation") := by
  have hd : discover entries = [] := by
    rw [discover]
    have h1 : entries.filter (fun e => strEndsWith e.1 ".yml") = [] :=
      List.filter_eq_nil_iff.mpr (fun e he => by simp [(h e he).1])
    have h2 : entries.filter (fun e => strEndsWith e.1 ".yaml") = [] :=
      List.filter_eq_nil_iff.mpr (fun e he => by simp [(h e he).2])
    rw [h1, h2]
    rfl
  refine ⟨hd, ?_⟩
  simp only [main_validate, targetFiles, hd]
  rfl

/-- C10 witness: a concrete directory holding only a readme and a
deployment script. -/
theorem C10_empty_directory_run_witness :
    discover [("README.md", ⟨.ok .null, .ok⟩), ("deploy.json", ⟨.ok .null, .ok⟩)] = []
    ∧ main_validate (.dir [("README.md", ⟨.ok .null, .ok⟩), ("deploy.json", ⟨.ok .null, .ok⟩)])
      = (0, [], "📊 Summary: 0/0 files passed validation") :=
  C10_empty_directory_run
    [("README.md", ⟨.ok .null, .ok⟩), ("deploy.json", ⟨.ok .null, .ok⟩)]
    (by
      intro e he
      simp only [List.mem_cons, List.mem_singleton] at he
      rcases he with rfl | rfl | h0
      · exact ⟨rfl, rfl⟩
      · exact ⟨rfl, rfl⟩
      · cases h0)

/-- C1 counterexample: with two discovered files whose remote
validation would hit missing credentials on the first, the Template
Checker does not terminate at that point - the second file is still
fully processed (its trace exists and all three of its checks run) and
the failure exit code is only produced at the end of the run. -/
theorem C1_checker_continues_after_missing_credentials :
    (main_validate (.dir [("a.yml", ⟨.ok (.dict []), .noCreds⟩),
        ("b.yml", ⟨.ok (.dict []), .ok⟩)])).2.1
      = [.cfFailed "Valid YAML syntax" "AWS credentials not configured",
         .passed "Valid YAML syntax" "Valid CloudFormation template" []]
    ∧ (main_validate (.dir [("a.yml", ⟨.ok (.dict []), .noCreds⟩),
        ("b.yml", ⟨.ok (.dict []), .ok⟩)])).1 = 1
    ∧ processFileActions ⟨.ok (.dict []), .ok⟩ = [.runSyntax, .runRemote, .runSecurity] :=
  ⟨rfl, rfl, rfl⟩

/-- C1 (amended): missing credentials are fatal-and-immediate only in
the Encryption Auditor (error printed, exit 1, nothing else done); in
the Template Checker a missing-credentials failure during a file's
remote validation marks that file failed, every discovered file is
still processed, and the run exits 1 at the end. -/
theorem C1_missing_credentials_amended :
    (∀ w : S3World, w.creds = false →
      main_audit w = (1, ["[ERROR] AWS credentials not found. Configure them and retry."]))
    ∧ (∀ es : List (String × FileState), ∀ f ∈ discover es, f.cf = .noCreds →
      (main_validate (.dir es)).1 = 1
      ∧ (main_validate (.dir es)).2.1 = (discover es).map processFile) := by
  constructor
  · intro w h
    simp [main_audit, h]
  · intro es f hf hcf
    have hcfail : (validate_cloudformation_template f).1 = false := by
      simp [validate_cloudformation_template, hcf]
    have hfail : (processFile f).isPassed = false := by
      rw [processFile_isPassed, hcfail, Bool.and_false]
    constructor
    · have hne : (discover es).countP (fun g => (processFile g).isPassed)
          ≠ (discover es).length := by
        intro he
        have hall := List.countP_eq_length.mp he f hf
        rw [hfail] at hall
        cases hall
      simp [main_validate, targetFiles, loopFiles_eq, hne]
    · simp [main_validate, targetFiles, loopFiles_eq]

/-- C1 witness: a credential-less auditor world exits 1 at once, and a
one-file checker run whose remote validation lacks credentials exits 1. -/
theorem C1_missing_credentials_witness :
    main_audit ⟨false, .ok [], fun _ => .ok⟩
      = (1, ["[ERROR] AWS credentials not found. Configure them and retry."])
    ∧ (main_validate (.dir [("a.yml", ⟨.ok .null, .noCreds⟩)])).1 = 1 :=
  ⟨C1_missing_credentials_amended.1 ⟨false, .ok [], fun _ => .ok⟩ rfl,
   (C1_missing_credentials_amended.2 [("a.yml", ⟨.ok .null, .noCreds⟩)]
     ⟨.ok .null, .noCreds⟩
     (by
       have hd : discover [("a.yml", (⟨.ok .null, .noCreds⟩ : FileState))]
           = [⟨.ok .null, .noCreds⟩] := rfl
       rw [hd]
       exact List.mem_singleton.mpr rfl)
     rfl).1⟩

/-- C2 counterexample: a connectivity failure while listing the buckets
is absorbed inside `list_unencrypted_buckets`; the driver prints the
listing error, then reports the all-encrypted success message and exits
0, not 1. -/
theorem C2_enumeration_failure_exits_zero :
    main_audit ⟨true, .connError "conn refused", fun _ => .ok⟩
      = (0, ["[ERROR] Unable to list buckets: conn refused", allEncryptedMsg])
    ∧ (main_audit ⟨true, .connError "conn refused", fun _ => .ok⟩).1 ≠ 1 :=
  ⟨rfl, by decide⟩

/-- C2 (amended): a connectivity failure during enumeration is handled
inside `list_unencrypted_buckets`: the error line is printed, the empty
result is treated as "no unencrypted buckets", and the process prints
the success message and exits 0. -/
theorem C2_enumeration_failure_amended (w : S3World) (m : String)
    (hcreds : w.creds = true) (hlist : w.listBucketsResult = .connError m) :
    main_audit w = (0, ["[ERROR] Unable to list buckets: " ++ m, allEncryptedMsg]) := by
  simp [main_audit, hcreds, list_unencrypted_buckets, hlist]

/-- C2 witness: the amended behaviour at a concrete world. -/
theorem C2_enumeration_failure_witness :
    main_audit ⟨true, .connError "no route to host", fun _ => .ok⟩
      = (0, ["[ERROR] Unable to list buckets: " ++ "no route to host", allEncryptedMsg]) :=
  C2_enumeration_failure_amended ⟨true, .connError "no route to host", fun _ => .ok⟩
    "no route to host" rfl rfl
